import Mathlib

/-!
Verification of the amazon-connect-migration-scripts repository.

This file gives a shallow embedding, in Lean 4, of the parts of the Python
source that the checked claims are about:

  - performance_tuning.py            (get_recommended_batch_size)
  - connect_queue_export.py          (tag and name filters, pagination,
                                      export_queues_by_bu_tag)
  - connect_user_export.py           (get_all_users, export_users)
  - connect_quick_connect_export.py  (get_all_quick_connects)
  - connect_user_import.py           (analyze_security_profiles, create_user,
                                      import_users with batch processing)
  - connect_queue_import.py          (map_hours_of_operation, create_queue,
                                      import_queues)
  - connect_quick_connect_import.py  (create_quick_connect)

Modelling conventions, used throughout:

  - Python dicts with string keys become association lists
    (List (String × V)); lookup is List.lookup, which returns the first
    binding, matching dict semantics since dict keys are unique.
    dict key order (insertion order) is the list order.
  - Python strings are String; str.lower is character-wise Char.toLower
    (pyLower); str.startswith is list-prefix on the character data
    (pyStartswith).  Both are kernel-reducible, unlike String.toLower and
    String.startsWith.
  - Python truthiness on optional strings ("if not x") is pyTruthy:
    None and the empty string are falsy.
  - Code that performs AWS API calls is parametrised by oracle functions
    standing for the remote service; a fallible call returns
    Except ApiError R (a ClientError carries an error code) or, where only
    the error text matters, Except String R.
  - Loops that also perform time.sleep or logging keep only the
    state-relevant effects; where a claim is about sleeps, the embedding
    counts them explicitly.
-/

/-! ## Python semantics helpers -/

/-- Python truthiness of an optional string: None and the empty string are
falsy, every other string is truthy (models "if x:" / "if not x:"). -/
def pyTruthy : Option String → Bool
  | none => false
  | some s => !s.isEmpty

/-- Python str.lower, modelled character-wise (ASCII-faithful). -/
def pyLower (s : String) : String := ⟨s.data.map Char.toLower⟩

/-- Python str.startswith, modelled as list-prefix on the character data. -/
def pyStartswith (s pre : String) : Bool := pre.data.isPrefixOf s.data

/-- Python "a or b" on two optional strings: the first operand if it is
truthy, else the second. -/
def pyOr (a b : Option String) : Option String := if pyTruthy a then a else b

/-! ## performance_tuning.py -/

/-- One entry of the BATCH_SIZE_RECOMMENDATIONS table
(performance_tuning.py, lines 158-175). -/
structure BatchRecommendation where
  batch_size : Int
  description : String
deriving Repr, DecidableEq

/-- BATCH_SIZE_RECOMMENDATIONS["small"]. -/
def BATCH_SIZE_RECOMMENDATIONS_small : BatchRecommendation :=
  ⟨100, "Small dataset - can use larger batches"⟩

/-- BATCH_SIZE_RECOMMENDATIONS["medium"]. -/
def BATCH_SIZE_RECOMMENDATIONS_medium : BatchRecommendation :=
  ⟨50, "Medium dataset - balanced approach"⟩

/-- BATCH_SIZE_RECOMMENDATIONS["large"]. -/
def BATCH_SIZE_RECOMMENDATIONS_large : BatchRecommendation :=
  ⟨25, "Large dataset - conservative batching"⟩

/-- BATCH_SIZE_RECOMMENDATIONS["very_large"]. -/
def BATCH_SIZE_RECOMMENDATIONS_very_large : BatchRecommendation :=
  ⟨10, "Very large dataset - small batches for stability"⟩

/-- get_recommended_batch_size (performance_tuning.py, lines 177-187).
Python ints are unbounded signed integers, hence Int. -/
def get_recommended_batch_size (user_count : Int) : BatchRecommendation :=
  if user_count < 1000 then BATCH_SIZE_RECOMMENDATIONS_small
  else if user_count < 5000 then BATCH_SIZE_RECOMMENDATIONS_medium
  else if user_count < 20000 then BATCH_SIZE_RECOMMENDATIONS_large
  else BATCH_SIZE_RECOMMENDATIONS_very_large

/-! ## connect_queue_export.py : filters -/

/-- The filter configuration held by ConnectQueueExporter: the BU tag value
and the optional queue name prefix (constructor, lines 48-61).  The source
field queue_prefix is called queue_pfx here. -/
structure QueueExporterConfig where
  bu_tag_value : String
  queue_pfx : Option String
deriving Repr, DecidableEq

/-- queue_matches_bu_tag (connect_queue_export.py, lines 225-239): scans the
tag dict for an entry whose key lowercases to "bu" and whose value
lowercases to the configured BU value lowercased. -/
def queue_matches_bu_tag (cfg : QueueExporterConfig)
    (queue_tags : List (String × String)) : Bool :=
  queue_tags.any fun kv =>
    pyLower kv.1 == "bu" && pyLower kv.2 == pyLower cfg.bu_tag_value

/-- queue_matches_name_prefix (connect_queue_export.py, lines 241-254): true
when no (truthy) prefix is configured, else startswith. -/
def queue_matches_name_pfx (cfg : QueueExporterConfig)
    (queue_name : String) : Bool :=
  match cfg.queue_pfx with
  | none => true
  | some p => if p.isEmpty then true else pyStartswith queue_name p

/-- queue_matches_filters (connect_queue_export.py, lines 256-270):
conjunction of the BU tag filter and the name filter. -/
def queue_matches_filters (cfg : QueueExporterConfig) (queue_name : String)
    (queue_tags : List (String × String)) : Bool :=
  queue_matches_bu_tag cfg queue_tags && queue_matches_name_pfx cfg queue_name

/-! ## Pagination (connect_user_export.py lines 46-92,
connect_queue_export.py lines 75-122,
connect_quick_connect_export.py lines 66-112)

The service is modelled by the stream of responses it returns, in request
order.  Each response carries a summary list and an optional NextToken.
The loop appends the page, then breaks when the token is falsy
("if not next_token"); otherwise it passes the token into the next request
and consumes the next response of the stream. -/

/-- One list_users / list_queues / list_quick_connects response. -/
structure ListPage (α : Type) where
  summaryList : List α
  nextToken : Option String
deriving Repr, DecidableEq

/-- The shared pagination loop: consume responses until one carries a falsy
NextToken (absent or empty string). -/
def paginateAll {α : Type} : List (ListPage α) → List α
  | [] => []
  | p :: rest =>
    p.summaryList ++ (if pyTruthy p.nextToken then paginateAll rest else [])

/-- Number of list requests the loop issues against the response stream. -/
def pagesRequested {α : Type} : List (ListPage α) → Nat
  | [] => 0
  | p :: rest => 1 + (if pyTruthy p.nextToken then pagesRequested rest else 0)

/-- get_all_users (connect_user_export.py, lines 46-92). -/
def get_all_users {α : Type} (responses : List (ListPage α)) : List α :=
  paginateAll responses

/-- get_all_queues (connect_queue_export.py, lines 75-122); the QueueTypes
STANDARD filter is applied by the service, so it lives in the response
stream. -/
def get_all_queues {α : Type} (responses : List (ListPage α)) : List α :=
  paginateAll responses

/-- get_all_quick_connects (connect_quick_connect_export.py, lines
66-112). -/
def get_all_quick_connects {α : Type} (responses : List (ListPage α)) :
    List α :=
  paginateAll responses

/-! ## connect_user_export.py : export_users -/

/-- One entry of the UserSummaryList: the loop reads summary["Id"] and
summary.get("Username", "Unknown"). -/
structure UserSummaryRec where
  id : String
  username : Option String
deriving Repr, DecidableEq

/-- One entry of the FailedUsers list (lines 209-213). -/
structure FailedUserRec where
  userId : String
  username : String
  error : String
deriving Repr, DecidableEq

/-- The per-user export loop (connect_user_export.py, lines 190-213).
The oracle detail stands for self.get_user_details; an error value is the
exception text caught by the except branch.  Returns (exported users,
failed records, ids passed to get_user_details in call order). -/
def export_users_loop {δ : Type} (detail : UserSummaryRec → Except String δ) :
    List UserSummaryRec → List δ × List FailedUserRec × List String
  | [] => ([], [], [])
  | u :: rest =>
    match detail u with
    | .ok d =>
      let r := export_users_loop detail rest
      (d :: r.1, r.2.1, u.id :: r.2.2)
    | .error e =>
      let r := export_users_loop detail rest
      (r.1, ⟨u.id, u.username.getD "Unknown", e⟩ :: r.2.1, u.id :: r.2.2)

/-- The export_data dict assembled at lines 216-224 (InstanceId and the
timestamp, environment data with no bearing on any claim, are omitted). -/
structure UserExportData (δ : Type) where
  totalUsers : Nat
  successfulExports : Nat
  failedExports : Nat
  users : List δ
  failedUsers : List FailedUserRec
deriving Repr, DecidableEq

/-- export_users (connect_user_export.py, lines 167-239).  The user list
returned by get_all_users is a parameter; the result is the export data
handed to json.dump (none on the empty early return at lines 186-188,
where no file is written), paired with the trace of get_user_details
calls. -/
def export_users {δ : Type} (detail : UserSummaryRec → Except String δ)
    (users : List UserSummaryRec) :
    Option (UserExportData δ) × List String :=
  if users.isEmpty then (none, [])
  else
    let r := export_users_loop detail users
    (some { totalUsers := users.length
            successfulExports := r.1.length
            failedExports := r.2.1.length
            users := r.1
            failedUsers := r.2.1 }, r.2.2)

/-! ## connect_queue_export.py : export_queues_by_bu_tag -/

/-- One entry of the metadata cache built by build_queue_metadata_cache
(lines 167-173; arn and the raw summary are not read again by
export_queues_by_bu_tag). -/
structure QueueCacheEntry where
  id : String
  name : String
  tags : List (String × String)
deriving Repr, DecidableEq

/-- A Python runtime error surfaced by the embedding. -/
inductive PyError where
  | nameError (unboundName : String)
  | exception (text : String)
deriving Repr, DecidableEq

/-- export_queues_by_bu_tag (connect_queue_export.py, lines 364-501).
The metadata cache is a parameter (result of build_queue_metadata_cache);
detail stands for self.get_queue_details.  On an empty cache the function
returns the output path early (lines 397-400).  Otherwise it filters the
cache locally (lines 408-418), runs the per-queue export loop catching
per-queue failures (lines 430-451), and then assembles the export_data
dict literal (lines 466-477) — whose value for the key
"TotalQueuesScanned" reads the name all_queues.  That name is not bound
in this function: it is a local variable of build_queue_metadata_cache
(line 133), not a module global.  CPython therefore raises NameError
while evaluating the dict literal, before json.dump is reached, so the
embedding returns that error for every non-empty cache. -/
def export_queues_by_bu_tag {δ : Type}
    (detail : QueueCacheEntry → Except String δ)
    (cfg : QueueExporterConfig) (queue_cache : List QueueCacheEntry)
    (output_file : String) : Except PyError String :=
  if queue_cache.isEmpty then .ok output_file
  else
    let matching := queue_cache.filter fun q =>
      queue_matches_bu_tag cfg q.tags && queue_matches_name_pfx cfg q.name
    let _exported := matching.filterMap fun q => (detail q).toOption
    let _failed := matching.filterMap fun q =>
      match detail q with
      | .ok _ => none
      | .error e => some (q.id, q.name, e)
    .error (PyError.nameError "all_queues")

/-! ## connect_queue_import.py -/

/-- A botocore ClientError as the import scripts read it:
e.response["Error"]["Code"] plus the message text. -/
structure ApiError where
  code : String
  message : String
deriving Repr, DecidableEq

/-- The shared try/except tail of create_user, create_queue and
create_quick_connect (copy-pasted across the three importers): issue the
create call; on success return True, on a ClientError whose code is
DuplicateResourceException return True (the existing object counts as
success), on any other error return False.  The second component records
the call that was issued. -/
def createCallResult {pi : Type} (api : pi → Except ApiError String)
    (params : pi) : Bool × Option pi :=
  match api params with
  | .ok _ => (true, some params)
  | .error e =>
    if e.code == "DuplicateResourceException" then (true, some params)
    else (false, some params)

/-- The existing_resources dict built by
ConnectQueueImporter.get_existing_resources (lines 80-136): name → id maps
in service listing order (phone numbers are keyed by the number value). -/
structure QueueImportResources where
  queues : List (String × String)
  quick_connects : List (String × String)
  hours_of_operations : List (String × String)
  phone_numbers : List (String × String)
deriving Repr, DecidableEq

/-- map_hours_of_operation (connect_queue_import.py, lines 200-223).
The source reads list(existing["hours_of_operations"].keys())[0] — the
first key in dict insertion order — and returns its id; the passed
hours_of_operation_id is never consulted (the comment at lines 211-212
says a name-based mapping would be the real implementation).  With no
hours of operations in the target it returns None. -/
def map_hours_of_operation (_hours_of_operation_id : Option String)
    (resources : QueueImportResources) : Option String :=
  match resources.hours_of_operations with
  | [] => none
  | (_, default_id) :: _ => some default_id

/-- The OutboundCallerConfig dict of a queue; only the phone number id
field is rewritten by the importer, the remaining keys are carried as
opaque payload in rest. -/
structure OutboundCallerConfig where
  outboundCallerIdNumberId : Option String
  rest : List (String × String)
deriving Repr, DecidableEq

/-- map_outbound_caller_config (connect_queue_import.py, lines 225-262):
copy the config; when it carries a truthy OutboundCallerIdNumberId,
replace it by the explicit mapping if one exists, else by the first phone
number of the target instance, else pop the key. -/
def map_outbound_caller_config (phone_number_mapping : List (String × String))
    (outbound_config : Option OutboundCallerConfig)
    (resources : QueueImportResources) : Option OutboundCallerConfig :=
  match outbound_config with
  | none => none
  | some oc =>
    match oc.outboundCallerIdNumberId with
    | none => some oc
    | some sid =>
      if sid.isEmpty then some oc
      else
        match List.lookup sid phone_number_mapping with
        | some tid => some { oc with outboundCallerIdNumberId := some tid }
        | none =>
          match resources.phone_numbers with
          | (_, default_phone_id) :: _ =>
            some { oc with outboundCallerIdNumberId := some default_phone_id }
          | [] => some { oc with outboundCallerIdNumberId := none }

/-- The fields of queue_data["Queue"] that create_queue reads
(lines 275-308). -/
structure QueueInfo where
  name : String
  description : Option String
  hoursOfOperationId : Option String
  maxContacts : Option Nat
  outboundCallerConfig : Option OutboundCallerConfig
deriving Repr, DecidableEq

/-- One element of the export file Queues list, as the queue importer
reads it.  The QuickConnects sub-list feeds only the post-create
association step, which no claim depends on, and is omitted here. -/
structure QueueExportRecord where
  queue : QueueInfo
  tags : List (String × String)
deriving Repr, DecidableEq

/-- The keyword arguments handed to connect_client.create_queue
(lines 290-315). -/
structure CreateQueueParams where
  name : String
  description : String
  hoursOfOperationId : String
  maxContacts : Option Nat
  outboundCallerConfig : Option OutboundCallerConfig
  tags : List (String × String)
deriving Repr, DecidableEq

/-- create_queue (connect_queue_import.py, lines 264-334).  The oracle api
is the connect_client.create_queue call; the post-create quick connect
association (line 321) is omitted (it cannot change the Dup branch, which
jumps straight to the handler).  Returns the source return value paired
with the create call issued, if any. -/
def create_queue (api : CreateQueueParams → Except ApiError String)
    (phone_number_mapping : List (String × String))
    (queue_data : QueueExportRecord) (resources : QueueImportResources) :
    Bool × Option CreateQueueParams :=
  let queue_info := queue_data.queue
  match map_hours_of_operation queue_info.hoursOfOperationId resources with
  | none => (false, none)
  | some h =>
    if h.isEmpty then (false, none)
    else
      let params : CreateQueueParams :=
        { name := queue_info.name
          description := queue_info.description.getD ""
          hoursOfOperationId := h
          maxContacts :=
            match queue_info.maxContacts with
            | some m => if m = 0 then none else some m
            | none => none
          outboundCallerConfig :=
            match queue_info.outboundCallerConfig with
            | some oc =>
              map_outbound_caller_config phone_number_mapping (some oc)
                resources
            | none => none
          tags := queue_data.tags }
      createCallResult api params

/-- Import statistics of import_queues (lines 447-452). -/
structure QueueImportResults where
  success : Nat
  failed : Nat
  skipped : Nat
  failed_queues : List String
deriving Repr, DecidableEq

/-- The per-queue loop of import_queues (connect_queue_import.py, lines
455-482).  createQueue stands for self.create_queue; an error value is an
exception escaping the loop body, caught at line 476.  Returns the
updated statistics, the names for which create_queue was invoked, and the
names iterated, both in processing order. -/
def import_queues_loop (dry_run : Bool)
    (createQueue : QueueExportRecord → Except String Bool)
    (existing_queues : List (String × String)) :
    List QueueExportRecord → QueueImportResults →
    QueueImportResults × List String × List String
  | [], r => (r, [], [])
  | q :: qs, r =>
    let queue_name := q.queue.name
    let step : QueueImportResults × Bool :=
      if (List.lookup queue_name existing_queues).isSome then
        ({ r with skipped := r.skipped + 1 }, false)
      else if dry_run then
        ({ r with success := r.success + 1 }, false)
      else
        match createQueue q with
        | .ok true => ({ r with success := r.success + 1 }, true)
        | .ok false =>
          ({ r with failed := r.failed + 1
                    failed_queues := r.failed_queues ++ [queue_name] }, true)
        | .error _ =>
          ({ r with failed := r.failed + 1
                    failed_queues := r.failed_queues ++ [queue_name] }, true)
    let rec_result := import_queues_loop dry_run createQueue existing_queues qs step.1
    (rec_result.1,
     (if step.2 then queue_name :: rec_result.2.1 else rec_result.2.1),
     queue_name :: rec_result.2.2)

/-- import_queues (connect_queue_import.py, lines 394-495): early empty
return (lines 439-441), then the per-queue loop over the export list. -/
def import_queues (dry_run : Bool)
    (createQueue : QueueExportRecord → Except String Bool)
    (existing_queues : List (String × String))
    (queues : List QueueExportRecord) :
    QueueImportResults × List String × List String :=
  if queues.isEmpty then (⟨0, 0, 0, []⟩, [], [])
  else import_queues_loop dry_run createQueue existing_queues queues ⟨0, 0, 0, []⟩

/-! ## connect_user_import.py -/

/-- One element of a user record SecurityProfiles list, as the importer
reads it: the keys "SecurityProfileName" and "Name" when present
(none = key absent). -/
structure SecurityProfileRef where
  securityProfileName : Option String
  name : Option String
deriving Repr, DecidableEq

/-- The RoutingProfile sub-dict of a user record; only Name is read by the
mapping step (the remaining fields feed create_missing_routing_profile,
which is an oracle here). -/
structure RoutingProfileRef where
  name : String
deriving Repr, DecidableEq

/-- The HierarchyGroup sub-dict of a user record. -/
structure HierarchyGroupRef where
  name : String
deriving Repr, DecidableEq

/-- One element of the export file Users list, as the user importer reads
it.  IdentityInfo, PhoneConfig, DirectoryUserId and Tags are passed
through to create_user unchanged and are not modelled. -/
structure UserRecord where
  username : String
  routingProfile : Option RoutingProfileRef
  securityProfiles : List SecurityProfileRef
  hierarchyGroup : Option HierarchyGroupRef
deriving Repr, DecidableEq

/-- The existing_resources dict built by
ConnectUserImporter.get_existing_resources (lines 101-149): name → id. -/
structure UserImportResources where
  routing_profiles : List (String × String)
  security_profiles : List (String × String)
  hierarchy_groups : List (String × String)
deriving Repr, DecidableEq

/-- The profile name of one SecurityProfiles entry as
analyze_security_profiles reads it (line 366):
sp.get("SecurityProfileName") or sp.get("Name"), kept only when truthy
(line 367). -/
def analyzedProfileName (sp : SecurityProfileRef) : Option String :=
  match pyOr sp.securityProfileName sp.name with
  | none => none
  | some n => if n.isEmpty then none else some n

/-- The (truthy) security profile names one user requires, in entry order
(analyze_security_profiles, lines 360-373). -/
def userRequiredProfileNames (u : UserRecord) : List String :=
  u.securityProfiles.filterMap analyzedProfileName

/-- required_profiles of analyze_security_profiles (a Python set). -/
def required_profiles (users : List UserRecord) : Finset String :=
  users.foldl (fun acc u => acc ∪ (userRequiredProfileNames u).toFinset) ∅

/-- available_profiles: the key set of the target security profile dict
(line 375). -/
def available_profiles (resources : UserImportResources) : Finset String :=
  (resources.security_profiles.map Prod.fst).toFinset

/-- missing_profiles = required_profiles - available_profiles (line 376). -/
def missing_profiles (users : List UserRecord)
    (resources : UserImportResources) : Finset String :=
  required_profiles users \ available_profiles resources

/-- Whether a user has some SecurityProfiles entry whose analyzed name is
among the missing profiles. -/
def user_references_missing (u : UserRecord) (missing : Finset String) :
    Bool :=
  (userRequiredProfileNames u).any fun n => decide (n ∈ missing)

/-- affected_users of analyze_security_profiles (lines 379-381).  The source
builds profile_usage (profile name → usernames of the users whose entries
carry it) and unions usage over the missing profiles; as a set of
usernames that union is exactly the usernames of the users that carry
some missing profile name, which is how it is written here.  The Python
set is kept as a deduplicated list (the importer only takes its len and
list). -/
def affected_users (users : List UserRecord) (missing : Finset String) :
    List String :=
  ((users.filter fun u => user_references_missing u missing).map
    (·.username)).dedup

/-- map_resource_ids (connect_user_import.py, lines 208-265).  The oracle
createMissingRoutingProfile stands for the
self.create_missing_routing_profile call wrapped in try/except at lines
231-234: none when that call failed or raised (the exception is caught
and the routing profile id stays falsy).  Security profile entries are
resolved by key presence ("SecurityProfileName" first, else "Name",
else continue, lines 239-246) and kept only when the target lookup is
truthy (lines 248-255).  The hierarchy group is looked up by name with no
fallback (lines 257-263). -/
def map_resource_ids
    (createMissingRoutingProfile : RoutingProfileRef → Option String)
    (user_data : UserRecord) (resources : UserImportResources) :
    Option String × List String × Option String :=
  let routing_profile_id : Option String :=
    match user_data.routingProfile with
    | none => none
    | some rp =>
      let rid := List.lookup rp.name resources.routing_profiles
      if pyTruthy rid then rid else createMissingRoutingProfile rp
  let security_profile_ids : List String :=
    user_data.securityProfiles.filterMap fun sp =>
      let chosen : Option String :=
        match sp.securityProfileName with
        | some n => some n
        | none => sp.name
      match chosen with
      | none => none
      | some n =>
        match List.lookup n resources.security_profiles with
        | some sid => if sid.isEmpty then none else some sid
        | none => none
  let hierarchy_group_id : Option String :=
    match user_data.hierarchyGroup with
    | none => none
    | some hg => List.lookup hg.name resources.hierarchy_groups
  (routing_profile_id, security_profile_ids, hierarchy_group_id)

/-- The keyword arguments handed to connect_client.create_user (lines
302-324).  IdentityInfo, PhoneConfig, DirectoryUserId and Tags are copied
from the record unchanged and are not modelled. -/
structure CreateUserParams where
  username : String
  routingProfileId : String
  securityProfileIds : List String
  hierarchyGroupId : Option String
deriving Repr, DecidableEq

/-- create_user (connect_user_import.py, lines 267-343).  Returns the
source return value paired with the create call issued, if any: False
with no call when the mapped routing profile id is falsy (lines 287-289)
or no security profile mapped (lines 291-300); after a call, True on
success, True on DuplicateResourceException (lines 334-337), False on any
other error. -/
def create_user (api : CreateUserParams → Except ApiError String)
    (createMissingRoutingProfile : RoutingProfileRef → Option String)
    (user_data : UserRecord) (resources : UserImportResources) :
    Bool × Option CreateUserParams :=
  let mapped := map_resource_ids createMissingRoutingProfile user_data resources
  if !(pyTruthy mapped.1) then (false, none)
  else if mapped.2.1.isEmpty then (false, none)
  else
    let params : CreateUserParams :=
      { username := user_data.username
        routingProfileId := mapped.1.getD ""
        securityProfileIds := mapped.2.1
        hierarchyGroupId :=
          if pyTruthy mapped.2.2 then mapped.2.2 else none }
    createCallResult api params

/-- The chunking performed by the batch loop of import_users (line 461-462:
for i in range(0, total_users, batch_size): users[i : i + batch_size]).
A zero step makes Python range raise ValueError; that case is mapped to
the empty chunk list and excluded by hypothesis wherever it matters. -/
def chunkList {α : Type} (batch_size : Nat) : List α → List (List α)
  | [] => []
  | x :: xs =>
    if batch_size = 0 then []
    else
      (x :: xs).take batch_size ::
        chunkList batch_size ((x :: xs).drop batch_size)
termination_by l => l.length
decreasing_by
  simp only [List.length_drop, List.length_cons]
  omega

/-- Import statistics of import_users (lines 451-456). -/
structure ImportResults where
  success : Nat
  failed : Nat
  skipped : Nat
  failed_users : List String
deriving Repr, DecidableEq

/-- The full observable outcome of one import_users run: the returned
statistics, the usernames for which create_user was invoked, the
usernames iterated by the batch loop in order, the username batches
formed, and the number of time.sleep(2) calls issued between batches. -/
structure UserImportRun where
  results : ImportResults
  createCalls : List String
  processed : List String
  batches : List (List String)
  sleeps : Nat
deriving Repr, DecidableEq

/-- The loop body for one user (import_users, lines 468-495).  On the dry
run path the mapResources oracle stands for self.map_resource_ids (an
error value is an exception caught at line 492); otherwise createUser
stands for self.create_user.  Returns the updated statistics and whether
create_user was invoked. -/
def import_users_process_user (dry_run : Bool)
    (mapResources : UserRecord → Except String (Option String × List String × Option String))
    (createUser : UserRecord → Except String Bool)
    (u : UserRecord) (r : ImportResults) : ImportResults × Bool :=
  if dry_run then
    match mapResources u with
    | .ok mapped =>
      if pyTruthy mapped.1 && !mapped.2.1.isEmpty then
        ({ r with success := r.success + 1 }, false)
      else
        ({ r with skipped := r.skipped + 1 }, false)
    | .error _ =>
      ({ r with failed := r.failed + 1
                failed_users := r.failed_users ++ [u.username] }, false)
  else
    match createUser u with
    | .ok true => ({ r with success := r.success + 1 }, true)
    | .ok false =>
      ({ r with failed := r.failed + 1
                failed_users := r.failed_users ++ [u.username] }, true)
    | .error _ =>
      ({ r with failed := r.failed + 1
                failed_users := r.failed_users ++ [u.username] }, true)

/-- The inner loop of one batch (import_users, lines 468-495): process the
users in order, collecting (statistics, create_user invocations,
usernames processed). -/
def import_users_batch (dry_run : Bool)
    (mapResources : UserRecord → Except String (Option String × List String × Option String))
    (createUser : UserRecord → Except String Bool) :
    List UserRecord → ImportResults →
    ImportResults × List String × List String
  | [], r => (r, [], [])
  | u :: us, r =>
    let step := import_users_process_user dry_run mapResources createUser u r
    let rest := import_users_batch dry_run mapResources createUser us step.1
    (rest.1,
     (if step.2 then u.username :: rest.2.1 else rest.2.1),
     u.username :: rest.2.2)

/-- The outer loop over batches (import_users, lines 461-500), carrying the
1-based batch number and total_batches; after a batch, time.sleep(2) runs
when not dry_run and batch_num < total_batches (lines 498-500).  Returns
(statistics, create calls, processed usernames, sleep count). -/
def import_users_batches (dry_run : Bool)
    (mapResources : UserRecord → Except String (Option String × List String × Option String))
    (createUser : UserRecord → Except String Bool)
    (total_batches : Nat) :
    Nat → List (List UserRecord) → ImportResults →
    ImportResults × List String × List String × Nat
  | _, [], r => (r, [], [], 0)
  | batch_num, b :: bs, r =>
    let this_batch := import_users_batch dry_run mapResources createUser b r
    let sleep_here : Nat :=
      if !dry_run && decide (batch_num < total_batches) then 1 else 0
    let rest :=
      import_users_batches dry_run mapResources createUser total_batches
        (batch_num + 1) bs this_batch.1
    (rest.1,
     this_batch.2.1 ++ rest.2.1,
     this_batch.2.2 ++ rest.2.2.1,
     sleep_here + rest.2.2.2)

/-- import_users (connect_user_import.py, lines 406-516).  The export file
Users list and the target resources are parameters.  Control flow: empty
early return (lines 427-430); the missing-security-profile early return
when not dry_run (lines 438-448), whose failed count is the size of the
affected_users set and whose failed_users is that set listed; otherwise
the batch loop over users chunked by batch_size, with
total_batches = (total_users + batch_size - 1) // batch_size
(line 464). -/
def import_users
    (mapResources : UserRecord → Except String (Option String × List String × Option String))
    (createUser : UserRecord → Except String Bool)
    (users : List UserRecord) (resources : UserImportResources)
    (batch_size : Nat) (dry_run : Bool) : UserImportRun :=
  if users.isEmpty then
    { results := ⟨0, 0, 0, []⟩, createCalls := [], processed := []
      batches := [], sleeps := 0 }
  else
    let missing := missing_profiles users resources
    if missing ≠ ∅ ∧ dry_run = false then
      { results := ⟨0, (affected_users users missing).length, 0,
                    affected_users users missing⟩
        createCalls := [], processed := [], batches := [], sleeps := 0 }
    else
      let user_batches := chunkList batch_size users
      let total_batches := (users.length + batch_size - 1) / batch_size
      let run := import_users_batches dry_run mapResources createUser
        total_batches 1 user_batches ⟨0, 0, 0, []⟩
      { results := run.1
        createCalls := run.2.1
        processed := run.2.2.1
        batches := user_batches.map (·.map (·.username))
        sleeps := run.2.2.2 }

/-! ## connect_quick_connect_import.py -/

/-- The QuickConnectConfig dict of a quick connect record.  Only the type
tag and the two optional ids are inspected (and then merely logged) by
the config mapping; further keys are carried opaquely in rest. -/
structure QuickConnectConfigRec where
  quickConnectType : String
  userConfigUserId : Option String
  queueConfigQueueId : Option String
  rest : List (String × String)
deriving Repr, DecidableEq

/-- The existing_resources dict of the quick connect importer
(lines 97-129). -/
structure QuickConnectImportResources where
  users : List (String × String)
  queues : List (String × String)
deriving Repr, DecidableEq

/-- map_quick_connect_config (connect_quick_connect_import.py, lines
131-162): copies the config and, for USER and QUEUE types, only logs a
warning that id mapping is not implemented, keeping the original ids —
so the mapped config equals the input. -/
def map_quick_connect_config (qc_config : QuickConnectConfigRec)
    (_resources : QuickConnectImportResources) : QuickConnectConfigRec :=
  qc_config

/-- One element of the export file QuickConnects list as the importer
reads it: qc_data["QuickConnect"] fields plus tags. -/
structure QuickConnectRecord where
  name : Option String
  description : Option String
  config : QuickConnectConfigRec
  tags : List (String × String)
deriving Repr, DecidableEq

/-- The keyword arguments handed to connect_client.create_quick_connect
(lines 186-196). -/
structure CreateQuickConnectParams where
  name : String
  description : String
  config : QuickConnectConfigRec
  tags : List (String × String)
deriving Repr, DecidableEq

/-- create_quick_connect (connect_quick_connect_import.py, lines 164-215).
Returns the source return value paired with the create call issued, if
any: False with no call when the Name field is falsy (lines 178-180);
after a call, True on success, True on DuplicateResourceException
(lines 206-209), False on any other error. -/
def create_quick_connect
    (api : CreateQuickConnectParams → Except ApiError String)
    (qc_data : QuickConnectRecord)
    (resources : QuickConnectImportResources) :
    Bool × Option CreateQuickConnectParams :=
  match qc_data.name with
  | none => (false, none)
  | some qc_name =>
    if qc_name.isEmpty then (false, none)
    else
      let params : CreateQuickConnectParams :=
        { name := qc_name
          description := qc_data.description.getD ""
          config := map_quick_connect_config qc_data.config resources
          tags := qc_data.tags }
      createCallResult api params

/-! ## Helper lemmas -/

/-- Every string starts with the empty string. -/
theorem pyStartswith_empty (s : String) : pyStartswith s "" = true := by
  simp [pyStartswith, List.isPrefixOf]

/-! ## Claim theorems -/

/-- C10: for every non-negative user count, get_recommended_batch_size
returns batch size 100 below 1000 users, 50 below 5000, 25 below 20000,
and 10 otherwise, and the recommended batch size is monotonically
non-increasing in the user count. -/
theorem claim_C10_recommended_batch_size (n : Int) (hn : 0 ≤ n) :
    ((n < 1000 → (get_recommended_batch_size n).batch_size = 100) ∧
     (1000 ≤ n → n < 5000 → (get_recommended_batch_size n).batch_size = 50) ∧
     (5000 ≤ n → n < 20000 → (get_recommended_batch_size n).batch_size = 25) ∧
     (20000 ≤ n → (get_recommended_batch_size n).batch_size = 10)) ∧
    (∀ m : Int, 0 ≤ m → m ≤ n →
      (get_recommended_batch_size n).batch_size ≤
        (get_recommended_batch_size m).batch_size) := by
  constructor
  · refine ⟨?_, ?_, ?_, ?_⟩ <;> intros <;>
      simp only [get_recommended_batch_size, BATCH_SIZE_RECOMMENDATIONS_small,
        BATCH_SIZE_RECOMMENDATIONS_medium, BATCH_SIZE_RECOMMENDATIONS_large,
        BATCH_SIZE_RECOMMENDATIONS_very_large] <;>
      split_ifs <;> first | rfl | omega
  · intro m hm hmn
    simp only [get_recommended_batch_size, BATCH_SIZE_RECOMMENDATIONS_small,
      BATCH_SIZE_RECOMMENDATIONS_medium, BATCH_SIZE_RECOMMENDATIONS_large,
      BATCH_SIZE_RECOMMENDATIONS_very_large]
    split_ifs <;> first | omega | norm_num

/-- C10 witness: the theorem applied at user counts 500 and 25000. -/
theorem claim_C10_recommended_batch_size_witness :
    (get_recommended_batch_size 500).batch_size = 100 ∧
    (get_recommended_batch_size 25000).batch_size ≤
      (get_recommended_batch_size 500).batch_size :=
  ⟨(claim_C10_recommended_batch_size 500 (by norm_num)).1.1 (by norm_num),
   (claim_C10_recommended_batch_size 25000 (by norm_num)).2 500 (by norm_num)
     (by norm_num)⟩

/-- C5: a queue passes the export filter exactly when some tag has key
"BU" ignoring case and value equal to the configured BU value ignoring
case, and either no queue prefix is configured or the queue name starts
with it; the filter is a pure function of the cached name and tags. -/
theorem claim_C5_queue_matches_filters (cfg : QueueExporterConfig)
    (queue_name : String) (queue_tags : List (String × String)) :
    queue_matches_filters cfg queue_name queue_tags = true ↔
      ((∃ kv ∈ queue_tags,
          pyLower kv.1 = "bu" ∧ pyLower kv.2 = pyLower cfg.bu_tag_value) ∧
       (cfg.queue_pfx = none ∨
        ∃ p, cfg.queue_pfx = some p ∧ pyStartswith queue_name p = true)) := by
  have h1 : queue_matches_bu_tag cfg queue_tags = true ↔
      ∃ kv ∈ queue_tags,
        pyLower kv.1 = "bu" ∧ pyLower kv.2 = pyLower cfg.bu_tag_value := by
    simp [queue_matches_bu_tag, List.any_eq_true, Bool.and_eq_true]
  have h2 : queue_matches_name_pfx cfg queue_name = true ↔
      (cfg.queue_pfx = none ∨
       ∃ p, cfg.queue_pfx = some p ∧ pyStartswith queue_name p = true) := by
    cases hc : cfg.queue_pfx with
    | none => simp [queue_matches_name_pfx, hc]
    | some p =>
      simp only [queue_matches_name_pfx, hc]
      by_cases hp : p.isEmpty
      · have hpe : p = "" := (String.isEmpty_iff p).mp hp
        subst hpe
        simp [pyStartswith_empty]
      · simp [hp]
  simp only [queue_matches_filters, Bool.and_eq_true]
  exact and_congr h1 h2

/-- C1: with a non-empty queue metadata cache and every per-queue detail
call succeeding, export_queues_by_bu_tag does not assemble and write the
export file: evaluating the export_data dict raises
NameError("all_queues" is not defined), so the function never returns the
output path.  The empty-cache early return, by contrast, does return the
path. -/
theorem claim_C1_export_queues_by_bu_tag_name_error :
    export_queues_by_bu_tag (fun _ => Except.ok (0 : Nat)) ⟨"retail", none⟩
        [⟨"q1", "SalesQueue", [("BU", "retail")]⟩] "out.json"
      = Except.error (PyError.nameError "all_queues") ∧
    export_queues_by_bu_tag (fun _ => Except.ok (0 : Nat)) ⟨"retail", none⟩
        [] "out.json"
      = Except.ok "out.json" := by
  constructor <;> rfl

/-- Helper for C7: when every response before the last carries a truthy
NextToken, the pagination loop consumes the whole stream, returning the
in-order concatenation of the pages with one request per page. -/
theorem paginateAll_join {α : Type} :
    ∀ pages : List (ListPage α), pages ≠ [] →
    (∀ p ∈ pages.dropLast, pyTruthy p.nextToken = true) →
    paginateAll pages = (pages.map ListPage.summaryList).flatten ∧
    pagesRequested pages = pages.length := by
  intro pages
  induction pages with
  | nil => intro h; exact absurd rfl h
  | cons a rest ih =>
    intro _ hmid
    cases rest with
    | nil =>
      cases hpt : pyTruthy a.nextToken <;>
        simp [paginateAll, pagesRequested, hpt]
    | cons b rest2 =>
      have hstep : (a :: b :: rest2).dropLast = a :: (b :: rest2).dropLast := rfl
      have ha : pyTruthy a.nextToken = true :=
        hmid a (hstep ▸ List.mem_cons_self _ _)
      have ih2 := ih (List.cons_ne_nil _ _)
        (fun p hp => hmid p (hstep ▸ List.mem_cons_of_mem _ hp))
      constructor
      · show a.summaryList ++
            (if pyTruthy a.nextToken then paginateAll (b :: rest2) else []) = _
        rw [ha, if_pos rfl, ih2.1]
        simp
      · show 1 +
            (if pyTruthy a.nextToken then pagesRequested (b :: rest2) else 0) = _
        rw [ha, if_pos rfl, ih2.2]
        simp [List.length_cons]
        omega

/-- C7 counterexample: a response that does carry a NextToken — the empty
string — also stops the loop ("if not next_token" is Python falsiness),
so the concatenation misses the later page and only one request is made,
against the two requests the claim implies. -/
theorem claim_C7_pagination_counterexample :
    get_all_users [⟨(["u1"] : List String), some ""⟩, ⟨["u2"], none⟩]
        = ["u1"] ∧
    pagesRequested [⟨(["u1"] : List String), some ""⟩, ⟨["u2"], none⟩] = 1 ∧
    (["u1"] : List String) ≠ ["u1", "u2"] := by
  refine ⟨rfl, rfl, by decide⟩

/-- C7 (amended): get_all_users, get_all_queues and get_all_quick_connects
return the in-order concatenation of every page of the response stream,
requesting each page exactly once and passing each NextToken forward,
provided every response before the last carries a truthy (present and
non-empty) NextToken; and the loop stops immediately on any response
whose NextToken is absent or the empty string, keeping only the pages up
to it. -/
theorem claim_C7_pagination {α : Type} (pages : List (ListPage α))
    (hne : pages ≠ [])
    (hmid : ∀ p ∈ pages.dropLast, pyTruthy p.nextToken = true) :
    (get_all_users pages = (pages.map ListPage.summaryList).flatten ∧
     get_all_queues pages = (pages.map ListPage.summaryList).flatten ∧
     get_all_quick_connects pages = (pages.map ListPage.summaryList).flatten ∧
     pagesRequested pages = pages.length) ∧
    (∀ (p : ListPage α) (rest : List (ListPage α)),
      pyTruthy p.nextToken = false →
      get_all_users (p :: rest) = p.summaryList ∧
      pagesRequested (p :: rest) = 1) := by
  have h := paginateAll_join pages hne hmid
  refine ⟨⟨h.1, h.1, h.1, h.2⟩, ?_⟩
  intro p rest hfalse
  constructor
  · show p.summaryList ++
        (if pyTruthy p.nextToken then paginateAll rest else []) = _
    rw [hfalse]
    simp
  · show 1 + (if pyTruthy p.nextToken then pagesRequested rest else 0) = 1
    rw [hfalse]
    simp

/-- C7 witness: the amended theorem applied to a concrete two-page
stream. -/
theorem claim_C7_pagination_witness :
    get_all_users [⟨(["a"] : List String), some "tok"⟩, ⟨["b"], none⟩]
        = ["a", "b"] ∧
    pagesRequested [⟨(["a"] : List String), some "tok"⟩, ⟨["b"], none⟩]
        = 2 := by
  have h := claim_C7_pagination (α := String)
    [⟨["a"], some "tok"⟩, ⟨["b"], none⟩] (by decide) (by decide)
  exact ⟨h.1.1, h.1.2.2.2⟩

/-- Helper for C3: the per-user export loop calls get_user_details exactly
once per listed user, in order, and splits the users into the exported
and the failed list by the outcome of that single call. -/
theorem export_users_loop_spec {δ : Type}
    (detail : UserSummaryRec → Except String δ) :
    ∀ users : List UserSummaryRec,
    (export_users_loop detail users).2.2 = users.map (·.id) ∧
    (export_users_loop detail users).1
      = users.filterMap (fun u => (detail u).toOption) ∧
    (export_users_loop detail users).2.1
      = users.filterMap (fun u =>
          match detail u with
          | .ok _ => none
          | .error e => some ⟨u.id, u.username.getD "Unknown", e⟩) := by
  intro users
  induction users with
  | nil => exact ⟨rfl, rfl, rfl⟩
  | cons u rest ih =>
    cases hd : detail u <;>
      simp [export_users_loop, hd, Except.toOption, ih.1, ih.2.1, ih.2.2]

/-- Helper for C8: every processed user lands in exactly one of the
exported and failed lists, so their lengths sum to the user count. -/
theorem export_users_loop_lengths {δ : Type}
    (detail : UserSummaryRec → Except String δ)
    (users : List UserSummaryRec) :
    (export_users_loop detail users).1.length +
      (export_users_loop detail users).2.1.length = users.length := by
  induction users with
  | nil => rfl
  | cons u rest ih =>
    cases hd : detail u <;>
      simp [export_users_loop, hd] <;> omega

/-- C8: for every export_users run over a non-empty listed user set, the
data written to the JSON file satisfies
TotalUsers = SuccessfulExports + FailedExports, with TotalUsers the
number of listed users, Users of length SuccessfulExports, and
FailedUsers of length FailedExports. -/
theorem claim_C8_export_users_accounting {δ : Type}
    (detail : UserSummaryRec → Except String δ)
    (users : List UserSummaryRec) (hne : users ≠ []) :
    ∃ d : UserExportData δ,
      (export_users detail users).1 = some d ∧
      d.totalUsers = d.successfulExports + d.failedExports ∧
      d.totalUsers = users.length ∧
      d.users.length = d.successfulExports ∧
      d.failedUsers.length = d.failedExports := by
  obtain ⟨u, us, rfl⟩ := List.exists_cons_of_ne_nil hne
  have hl := export_users_loop_lengths detail (u :: us)
  refine ⟨_, rfl, ?_, rfl, rfl, rfl⟩
  exact hl.symm

/-- C8 witness: the theorem applied to a concrete two-user run in which
one detail call succeeds and one fails. -/
theorem claim_C8_export_users_accounting_witness :
    ∃ d : UserExportData Nat,
      (export_users
        (fun u => if u.id = "u1" then Except.ok 7 else Except.error "boom")
        [⟨"u1", some "alice"⟩, ⟨"u2", none⟩]).1 = some d ∧
      d.totalUsers = d.successfulExports + d.failedExports ∧
      d.totalUsers = 2 ∧
      d.users.length = d.successfulExports ∧
      d.failedUsers.length = d.failedExports :=
  claim_C8_export_users_accounting
    (fun u => if u.id = "u1" then Except.ok 7 else Except.error "boom")
    [⟨"u1", some "alice"⟩, ⟨"u2", none⟩] (by decide)

/-- Helper for C3: the per-queue import loop visits every queue of the
export list once, in order; invokes create_queue exactly for the queues
that are neither already present in the target nor on a dry run; and adds
each queue to exactly one of the success, failed and skipped counts. -/
theorem import_queues_loop_spec (dry_run : Bool)
    (createQueue : QueueExportRecord → Except String Bool)
    (existing_queues : List (String × String)) :
    ∀ (qs : List QueueExportRecord) (r : QueueImportResults),
    (import_queues_loop dry_run createQueue existing_queues qs r).2.2
      = qs.map (fun q => q.queue.name) ∧
    (import_queues_loop dry_run createQueue existing_queues qs r).2.1
      = qs.filterMap (fun q =>
          if (List.lookup q.queue.name existing_queues).isSome || dry_run
          then none else some q.queue.name) ∧
    ((import_queues_loop dry_run createQueue existing_queues qs r).1.success +
     (import_queues_loop dry_run createQueue existing_queues qs r).1.failed +
     (import_queues_loop dry_run createQueue existing_queues qs r).1.skipped
      = r.success + r.failed + r.skipped + qs.length) := by
  cases dry_run with
  | true =>
    intro qs
    induction qs with
    | nil => intro r; exact ⟨rfl, rfl, rfl⟩
    | cons q rest ih =>
      intro r
      by_cases hmem : (List.lookup q.queue.name existing_queues).isSome
      · have h := ih { r with skipped := r.skipped + 1 }
        simp only [import_queues_loop, hmem, if_true]
        exact ⟨by simp [h.1], by simp [hmem, h.2.1],
          by simp only [h.2.2]; first | omega | (dsimp only; omega) | (simp; omega)⟩
      · have h := ih { r with success := r.success + 1 }
        simp only [import_queues_loop, hmem, if_false]
        simp only [Bool.false_eq_true, if_false, if_true]
        exact ⟨by simp [h.1], by simp [hmem, h.2.1],
          by simp only [h.2.2]; first | omega | (dsimp only; omega) | (simp; omega)⟩
  | false =>
    intro qs
    induction qs with
    | nil => intro r; exact ⟨rfl, rfl, rfl⟩
    | cons q rest ih =>
      intro r
      by_cases hmem : (List.lookup q.queue.name existing_queues).isSome
      · have h := ih { r with skipped := r.skipped + 1 }
        simp only [import_queues_loop, hmem, if_true]
        exact ⟨by simp [h.1], by simp [hmem, h.2.1],
          by simp only [h.2.2]; first | omega | (dsimp only; omega) | (simp; omega)⟩
      · cases hc : createQueue q with
        | ok b =>
          cases b with
          | true =>
            have h := ih { r with success := r.success + 1 }
            simp only [import_queues_loop, hmem, hc, Bool.false_eq_true, if_false]
            exact ⟨by simp [h.1], by simp [hmem, h.2.1],
              by simp only [h.2.2]; first | omega | (dsimp only; omega) | (simp; omega)⟩
          | false =>
            have h := ih { r with failed := r.failed + 1
                                  failed_queues :=
                                    r.failed_queues ++ [q.queue.name] }
            simp only [import_queues_loop, hmem, hc, Bool.false_eq_true, if_false]
            exact ⟨by simp [h.1], by simp [hmem, h.2.1],
              by simp only [h.2.2]; first | omega | (dsimp only; omega) | (simp; omega)⟩
        | error e =>
          have h := ih { r with failed := r.failed + 1
                                failed_queues :=
                                  r.failed_queues ++ [q.queue.name] }
          simp only [import_queues_loop, hmem, hc, Bool.false_eq_true, if_false]
          exact ⟨by simp [h.1], by simp [hmem, h.2.1],
            by simp only [h.2.2]; first | omega | (dsimp only; omega) | (simp; omega)⟩

/-- C3: during per-object processing no API call is repeated and no
failure escapes the object it hit: in the export loop each listed user
triggers exactly one get_user_details call, in order, and the exported
and failed lists partition the users by the outcome of that single call;
in import_queues every queue of the export file is visited exactly once
in order, create_queue is invoked at most once per queue (exactly for the
queues neither skipped as already existing nor on a dry run), and the
success, failed and skipped counts add up to the number of queues, a
failing queue being recorded while the loop continues. -/
theorem claim_C3_per_object_failures_isolated {δ : Type}
    (detail : UserSummaryRec → Except String δ)
    (users : List UserSummaryRec) (dry_run : Bool)
    (createQueue : QueueExportRecord → Except String Bool)
    (existing_queues : List (String × String))
    (queues : List QueueExportRecord) :
    ((export_users_loop detail users).2.2 = users.map (·.id) ∧
     (export_users_loop detail users).1
       = users.filterMap (fun u => (detail u).toOption) ∧
     (export_users_loop detail users).2.1
       = users.filterMap (fun u =>
           match detail u with
           | .ok _ => none
           | .error e => some ⟨u.id, u.username.getD "Unknown", e⟩)) ∧
    ((import_queues dry_run createQueue existing_queues queues).2.2
       = queues.map (fun q => q.queue.name) ∧
     (import_queues dry_run createQueue existing_queues queues).2.1
       = queues.filterMap (fun q =>
           if (List.lookup q.queue.name existing_queues).isSome || dry_run
           then none else some q.queue.name) ∧
     (import_queues dry_run createQueue existing_queues queues).1.success +
       (import_queues dry_run createQueue existing_queues queues).1.failed +
       (import_queues dry_run createQueue existing_queues queues).1.skipped
         = queues.length) := by
  refine ⟨export_users_loop_spec detail users, ?_⟩
  cases queues with
  | nil => exact ⟨rfl, rfl, rfl⟩
  | cons q qs =>
    have h := import_queues_loop_spec dry_run createQueue existing_queues
      (q :: qs) ⟨0, 0, 0, []⟩
    exact ⟨h.1, h.2.1, by simpa [import_queues] using h.2.2⟩

/-- Helper for C9: whenever the issued create call comes back as a
ClientError with code DuplicateResourceException, the shared handler
returns True. -/
theorem createCallResult_duplicate {pi : Type}
    (api : pi → Except ApiError String) (params p : pi) (e : ApiError)
    (hsnd : (createCallResult api params).2 = some p)
    (hapi : api p = Except.error e)
    (hcode : e.code = "DuplicateResourceException") :
    (createCallResult api params).1 = true := by
  cases happ : api params with
  | ok v => simp [createCallResult, happ]
  | error e0 =>
    have hp : params = p := by
      by_cases hd : e0.code == "DuplicateResourceException" <;>
        simp [createCallResult, happ, hd] at hsnd <;> exact hsnd
    subst hp
    rw [happ] at hapi
    have he : e0 = e := by
      injection hapi
    subst he
    simp [createCallResult, happ, hcode]

/-- C9: in each of the three importers, an object whose creation call
fails with DuplicateResourceException is reported as a success:
create_user, create_queue and create_quick_connect return True
in that case. -/
theorem claim_C9_duplicate_counts_as_success :
    (∀ (api : CreateUserParams → Except ApiError String)
       (cmr : RoutingProfileRef → Option String) (u : UserRecord)
       (res : UserImportResources) (p : CreateUserParams) (e : ApiError),
       (create_user api cmr u res).2 = some p →
       api p = Except.error e →
       e.code = "DuplicateResourceException" →
       (create_user api cmr u res).1 = true) ∧
    (∀ (api : CreateQueueParams → Except ApiError String)
       (pm : List (String × String)) (qd : QueueExportRecord)
       (res : QueueImportResources) (p : CreateQueueParams) (e : ApiError),
       (create_queue api pm qd res).2 = some p →
       api p = Except.error e →
       e.code = "DuplicateResourceException" →
       (create_queue api pm qd res).1 = true) ∧
    (∀ (api : CreateQuickConnectParams → Except ApiError String)
       (qc : QuickConnectRecord) (res : QuickConnectImportResources)
       (p : CreateQuickConnectParams) (e : ApiError),
       (create_quick_connect api qc res).2 = some p →
       api p = Except.error e →
       e.code = "DuplicateResourceException" →
       (create_quick_connect api qc res).1 = true) := by
  refine ⟨?_, ?_, ?_⟩
  · intro api cmr u res p e hsnd hapi hcode
    by_cases h1 : pyTruthy (map_resource_ids cmr u res).1
    · by_cases h2 : (map_resource_ids cmr u res).2.1.isEmpty
      · exfalso
        simp [create_user, h1, h2] at hsnd
      · simp only [create_user, h1, h2, Bool.not_true, Bool.false_eq_true,
          if_false] at hsnd ⊢
        exact createCallResult_duplicate api _ p e hsnd hapi hcode
    · exfalso
      simp [create_user, h1] at hsnd
  · intro api pm qd res p e hsnd hapi hcode
    cases hmap : map_hours_of_operation qd.queue.hoursOfOperationId res with
    | none =>
      exfalso
      simp [create_queue, hmap] at hsnd
    | some h =>
      by_cases hh : h.isEmpty
      · exfalso
        simp [create_queue, hmap, hh] at hsnd
      · simp only [create_queue, hmap, hh, Bool.false_eq_true,
          if_false] at hsnd ⊢
        exact createCallResult_duplicate api _ p e hsnd hapi hcode
  · intro api qc res p e hsnd hapi hcode
    cases hname : qc.name with
    | none =>
      exfalso
      simp [create_quick_connect, hname] at hsnd
    | some n =>
      by_cases hn : n.isEmpty
      · exfalso
        simp [create_quick_connect, hname, hn] at hsnd
      · simp only [create_quick_connect, hname, hn, Bool.false_eq_true,
          if_false] at hsnd ⊢
        exact createCallResult_duplicate api _ p e hsnd hapi hcode

/-- C9 witness: the theorem applied to concrete objects whose create call
answers DuplicateResourceException, in each of the three importers. -/
theorem claim_C9_duplicate_counts_as_success_witness :
    (create_user (fun _ => Except.error ⟨"DuplicateResourceException", "dup"⟩)
       (fun _ => none)
       ⟨"alice", some ⟨"RP"⟩, [⟨some "Agent", none⟩], none⟩
       ⟨[("RP", "rp-1")], [("Agent", "sp-1")], []⟩).1 = true ∧
    (create_queue (fun _ => Except.error ⟨"DuplicateResourceException", "dup"⟩)
       []
       ⟨⟨"Q1", none, some "h-src", none, none⟩, []⟩
       ⟨[], [], [("Default", "h1")], []⟩).1 = true ∧
    (create_quick_connect
       (fun _ => Except.error ⟨"DuplicateResourceException", "dup"⟩)
       ⟨some "QC1", none, ⟨"PHONE_NUMBER", none, none, []⟩, []⟩
       ⟨[], []⟩).1 = true :=
  ⟨claim_C9_duplicate_counts_as_success.1
     (fun _ => Except.error ⟨"DuplicateResourceException", "dup"⟩)
     (fun _ => none)
     ⟨"alice", some ⟨"RP"⟩, [⟨some "Agent", none⟩], none⟩
     ⟨[("RP", "rp-1")], [("Agent", "sp-1")], []⟩
     ⟨"alice", "rp-1", ["sp-1"], none⟩
     ⟨"DuplicateResourceException", "dup"⟩ (by decide) rfl rfl,
   claim_C9_duplicate_counts_as_success.2.1
     (fun _ => Except.error ⟨"DuplicateResourceException", "dup"⟩)
     []
     ⟨⟨"Q1", none, some "h-src", none, none⟩, []⟩
     ⟨[], [], [("Default", "h1")], []⟩
     ⟨"Q1", "", "h1", none, none, []⟩
     ⟨"DuplicateResourceException", "dup"⟩ (by decide) rfl rfl,
   claim_C9_duplicate_counts_as_success.2.2
     (fun _ => Except.error ⟨"DuplicateResourceException", "dup"⟩)
     ⟨some "QC1", none, ⟨"PHONE_NUMBER", none, none, []⟩, []⟩
     ⟨[], []⟩
     ⟨"QC1", "", ⟨"PHONE_NUMBER", none, none, []⟩, []⟩
     ⟨"DuplicateResourceException", "dup"⟩ (by decide) rfl rfl⟩

/-- Helper: the shared create-call handler always records the call it
issued. -/
theorem createCallResult_snd {pi : Type}
    (api : pi → Except ApiError String) (params : pi) :
    (createCallResult api params).2 = some params := by
  cases h : api params with
  | ok v => simp [createCallResult, h]
  | error e =>
    by_cases hd : e.code == "DuplicateResourceException" <;>
      simp [createCallResult, h, hd]

/-- C2 counterexample: a target instance holding hours of operations
Default (id h1) first and BusinessHours (id h2) second, and a source
queue whose hours of operation is named BusinessHours: the created queue
references h1, the first listed, not h2, the name match — the
hours-of-operation foreign key is not remapped by name. -/
theorem claim_C2_hours_mapping_counterexample :
    map_hours_of_operation (some "h-src")
        ⟨[], [], [("Default", "h1"), ("BusinessHours", "h2")], []⟩
      = some "h1" ∧
    (create_queue (fun _ => Except.ok "q-new") []
        ⟨⟨"Q1", none, some "h-src", none, none⟩, []⟩
        ⟨[], [], [("Default", "h1"), ("BusinessHours", "h2")], []⟩).2
      = some ⟨"Q1", "", "h1", none, none, []⟩ ∧
    List.lookup "BusinessHours"
        [("Default", "h1"), ("BusinessHours", "h2")] = some "h2" ∧
    ("h1" : String) ≠ "h2" := by
  exact ⟨rfl, rfl, by decide, by decide⟩

/-- C2 (amended): the hours-of-operation foreign key is not remapped by
name: map_hours_of_operation ignores the source reference entirely and
returns the id of the first hours of operation listed in the target, so
every created queue references that first entry; when the target has no
hours of operations, create_queue returns False without issuing a create
call. -/
theorem claim_C2_hours_of_operation_default_mapping
    (api : CreateQueueParams → Except ApiError String)
    (pm : List (String × String)) (qd : QueueExportRecord)
    (res : QueueImportResources)
    (n i : String) (rest : List (String × String))
    (hres : res.hours_of_operations = (n, i) :: rest)
    (hi : i.isEmpty = false) :
    (∀ src : Option String, map_hours_of_operation src res = some i) ∧
    (∀ p : CreateQueueParams,
      (create_queue api pm qd res).2 = some p → p.hoursOfOperationId = i) ∧
    (∀ res2 : QueueImportResources, res2.hours_of_operations = [] →
      create_queue api pm qd res2 = (false, none)) := by
  have hmap : map_hours_of_operation qd.queue.hoursOfOperationId res
      = some i := by
    simp [map_hours_of_operation, hres]
  refine ⟨fun src => by simp [map_hours_of_operation, hres], ?_, ?_⟩
  · intro p hp
    simp only [create_queue, hmap, hi, Bool.false_eq_true, if_false] at hp
    rw [createCallResult_snd] at hp
    have hpp := Option.some.inj hp
    rw [← hpp]
  · intro res2 hres2
    simp [create_queue, map_hours_of_operation, hres2]

/-- C2 witness: the amended theorem applied to the two-entry target of the
counterexample. -/
theorem claim_C2_hours_of_operation_default_mapping_witness :
    map_hours_of_operation (some "h-src")
        ⟨[], [], [("Default", "h1"), ("BusinessHours", "h2")], []⟩
      = some "h1" ∧
    (∀ p : CreateQueueParams,
      (create_queue (fun _ => Except.ok "q-new") []
          ⟨⟨"Q1", none, some "h-src", none, none⟩, []⟩
          ⟨[], [], [("Default", "h1"), ("BusinessHours", "h2")], []⟩).2
        = some p → p.hoursOfOperationId = "h1") :=
  have h := claim_C2_hours_of_operation_default_mapping
    (fun _ => Except.ok "q-new") []
    ⟨⟨"Q1", none, some "h-src", none, none⟩, []⟩
    ⟨[], [], [("Default", "h1"), ("BusinessHours", "h2")], []⟩
    "Default" "h1" [("BusinessHours", "h2")] rfl (by decide)
  ⟨h.1 (some "h-src"), h.2.1⟩

/-- Helper: with no users there are no required profiles, hence no missing
profiles. -/
theorem missing_profiles_nil (resources : UserImportResources) :
    missing_profiles [] resources = ∅ := by
  simp [missing_profiles, required_profiles]

/-- Helper: rebuilding the chunks of the batch loop gives back the list. -/
theorem chunkList_flatten {α : Type} (bs : Nat) (hbs : 0 < bs) :
    ∀ l : List α, (chunkList bs l).flatten = l
  | [] => by simp [chunkList]
  | x :: xs => by
    rw [chunkList, if_neg (Nat.pos_iff_ne_zero.mp hbs)]
    simp only [List.flatten_cons]
    rw [chunkList_flatten bs hbs ((x :: xs).drop bs)]
    exact List.take_append_drop bs (x :: xs)
termination_by l => l.length
decreasing_by
  simp only [List.length_drop, List.length_cons]
  omega

/-- Helper: the batch loop forms exactly
(total + batch_size - 1) / batch_size chunks, the ceiling of
total / batch_size. -/
theorem chunkList_length {α : Type} (bs : Nat) (hbs : 0 < bs) :
    ∀ l : List α, l ≠ [] →
      (chunkList bs l).length = (l.length + bs - 1) / bs
  | [], h => absurd rfl h
  | x :: xs, _ => by
    rw [chunkList, if_neg (Nat.pos_iff_ne_zero.mp hbs)]
    by_cases hle : (x :: xs).length ≤ bs
    · have hdrop : (x :: xs).drop bs = [] := List.drop_eq_nil_of_le hle
      rw [hdrop]
      simp only [chunkList, List.length_cons, List.length_nil]
      symm
      apply Nat.div_eq_of_lt_le <;>
        simp only [List.length_cons] at hle ⊢ <;> omega
    · push_neg at hle
      have hne : (x :: xs).drop bs ≠ [] := by
        intro hd
        have := congrArg List.length hd
        simp only [List.length_drop, List.length_nil] at this
        omega
      have ih := chunkList_length bs hbs ((x :: xs).drop bs) hne
      simp only [List.length_cons, ih, List.length_drop]
      have h2 : (x :: xs).length - bs + bs - 1 = (x :: xs).length - 1 := by
        omega
      have h3 : (x :: xs).length + bs - 1 = ((x :: xs).length - 1) + bs := by
        omega
      simp only [List.length_cons] at h2 h3
      rw [h2, h3, Nat.add_div_right _ hbs]
termination_by l => l.length
decreasing_by
  simp only [List.length_drop, List.length_cons]
  omega

/-- Helper: with a positive batch size, the chunk list is empty exactly for
the empty input. -/
theorem chunkList_eq_nil_iff {α : Type} (bs : Nat) (hbs : 0 < bs)
    (l : List α) : chunkList bs l = [] ↔ l = [] := by
  cases l with
  | nil => simp [chunkList]
  | cons x xs =>
    rw [chunkList, if_neg (Nat.pos_iff_ne_zero.mp hbs)]
    simp

/-- Helper: every chunk formed by the batch loop is non-empty and no longer
than the batch size. -/
theorem chunkList_mem_length {α : Type} (bs : Nat) (hbs : 0 < bs) :
    ∀ (l : List α) (b : List α), b ∈ chunkList bs l →
      0 < b.length ∧ b.length ≤ bs
  | [], b => by simp [chunkList]
  | x :: xs, b => by
    rw [chunkList, if_neg (Nat.pos_iff_ne_zero.mp hbs)]
    intro hb
    rcases List.mem_cons.mp hb with h | h
    · subst h
      simp only [List.length_take, List.length_cons]
      omega
    · exact chunkList_mem_length bs hbs ((x :: xs).drop bs) b h
termination_by l => l.length
decreasing_by
  simp only [List.length_drop, List.length_cons]
  omega

/-- Helper: every chunk except possibly the last has exactly batch_size
elements. -/
theorem chunkList_dropLast_length {α : Type} (bs : Nat) (hbs : 0 < bs) :
    ∀ (l : List α) (b : List α), b ∈ (chunkList bs l).dropLast →
      b.length = bs
  | [], b => by simp [chunkList]
  | x :: xs, b => by
    rw [chunkList, if_neg (Nat.pos_iff_ne_zero.mp hbs)]
    intro hb
    cases hcs : chunkList bs ((x :: xs).drop bs) with
    | nil =>
      rw [hcs] at hb
      simp at hb
    | cons c cs2 =>
      rw [hcs] at hb
      have hstep : (((x :: xs).take bs) :: c :: cs2).dropLast
          = ((x :: xs).take bs) :: (c :: cs2).dropLast := rfl
      rw [hstep] at hb
      rcases List.mem_cons.mp hb with h | h
      · subst h
        have hdne : (x :: xs).drop bs ≠ [] := by
          intro hd
          rw [hd] at hcs
          simp [chunkList] at hcs
        have hlen : bs < (x :: xs).length := by
          by_contra hc2
          push_neg at hc2
          exact hdne (List.drop_eq_nil_of_le hc2)
        simp only [List.length_take, List.length_cons] at *
        omega
      · exact chunkList_dropLast_length bs hbs ((x :: xs).drop bs) b
          (by rw [hcs]; exact h)
termination_by l => l.length
decreasing_by
  simp only [List.length_drop, List.length_cons]
  omega

/-- Helper: one batch of import_users iterates exactly its users, in
order. -/
theorem import_users_batch_processed (dry_run : Bool)
    (mapResources : UserRecord → Except String (Option String × List String × Option String))
    (createUser : UserRecord → Except String Bool) :
    ∀ (b : List UserRecord) (r : ImportResults),
    (import_users_batch dry_run mapResources createUser b r).2.2
      = b.map (·.username) := by
  intro b
  induction b with
  | nil => intro r; rfl
  | cons u us ih =>
    intro r
    simp only [import_users_batch, List.map_cons, List.cons.injEq]
    exact ⟨trivial, ih _⟩

/-- Helper: across all batches, import_users iterates exactly the
flattened batches, in order. -/
theorem import_users_batches_processed (dry_run : Bool)
    (mapResources : UserRecord → Except String (Option String × List String × Option String))
    (createUser : UserRecord → Except String Bool) (total_batches : Nat) :
    ∀ (bl : List (List UserRecord)) (k : Nat) (r : ImportResults),
    (import_users_batches dry_run mapResources createUser total_batches
        k bl r).2.2.1
      = (bl.map (·.map (·.username))).flatten := by
  intro bl
  induction bl with
  | nil => intro k r; rfl
  | cons b bs ih =>
    intro k r
    simp only [import_users_batches, List.map_cons, List.flatten_cons]
    rw [import_users_batch_processed, ih]

/-- Helper: on a non-dry run whose last batch is numbered total_batches,
the loop sleeps after every batch except the last. -/
theorem import_users_batches_sleeps (total_batches : Nat)
    (mapResources : UserRecord → Except String (Option String × List String × Option String))
    (createUser : UserRecord → Except String Bool) :
    ∀ (bl : List (List UserRecord)) (k : Nat) (r : ImportResults),
    k + bl.length = total_batches + 1 →
    (import_users_batches false mapResources createUser total_batches
        k bl r).2.2.2
      = bl.length - 1 := by
  intro bl
  induction bl with
  | nil => intro k r _; rfl
  | cons b bs ih =>
    intro k r hk
    simp only [import_users_batches, Bool.not_false, Bool.true_and]
    cases bs with
    | nil =>
      have hkt : k = total_batches := by
        simp only [List.length_cons, List.length_nil] at hk
        omega
      subst hkt
      simp [import_users_batches]
    | cons b2 bs2 =>
      have hklt : k < total_batches := by
        simp only [List.length_cons] at hk
        omega
      have ihh := ih (k + 1) (import_users_batch false mapResources
        createUser b r).1 (by simp only [List.length_cons] at hk ⊢; omega)
      simp [hklt, ihh, List.length_cons]
      omega

/-- Helper: mapping commutes with dropping the last element. -/
theorem map_dropLast_comm {α β : Type} (f : α → β) :
    ∀ l : List α, (l.map f).dropLast = l.dropLast.map f
  | [] => rfl
  | [_] => rfl
  | x :: y :: xs => by
    have hstep : ((x :: y :: xs).map f).dropLast
        = f x :: ((y :: xs).map f).dropLast := rfl
    rw [hstep, map_dropLast_comm f (y :: xs)]
    rfl

/-- C6 counterexample: one user referencing a security profile missing
from the target, run with dry_run false and batch_size 1, is never
processed — the missing-profile pre-check aborts the run with zero
batches, while the claim promises ceil(1/1) = 1 batch containing the
user. -/
theorem claim_C6_import_users_batching_counterexample :
    (import_users (fun _ => Except.ok (none, [], none))
        (fun _ => Except.ok true)
        [⟨"bob", none, [⟨some "P", none⟩], none⟩]
        ⟨[], [], []⟩ 1 false).processed = [] ∧
    (import_users (fun _ => Except.ok (none, [], none))
        (fun _ => Except.ok true)
        [⟨"bob", none, [⟨some "P", none⟩], none⟩]
        ⟨[], [], []⟩ 1 false).batches.length = 0 ∧
    (1 + 1 - 1) / 1 = 1 ∧
    (0 : Nat) ≠ 1 := by
  refine ⟨by decide, by decide, by decide, by decide⟩

/-- C6 (amended): whenever the run is not aborted by the
missing-security-profile pre-check (dry_run is true or no referenced
profile is missing from the target), import_users over a non-empty user
list with positive batch_size forms the consecutive chunks of batch_size
users (the last possibly smaller, none empty), processes every user
exactly once in file order across exactly
(total + batch_size - 1) / batch_size batches, and on a non-dry run
sleeps 2 seconds exactly once after every batch except the last. -/
theorem claim_C6_import_users_batching
    (mapResources : UserRecord → Except String (Option String × List String × Option String))
    (createUser : UserRecord → Except String Bool)
    (users : List UserRecord) (resources : UserImportResources)
    (batch_size : Nat) (dry_run : Bool)
    (hne : users ≠ []) (hbs : 0 < batch_size)
    (hok : dry_run = true ∨ missing_profiles users resources = ∅) :
    (import_users mapResources createUser users resources batch_size
        dry_run).batches
      = (chunkList batch_size users).map (·.map (·.username)) ∧
    (import_users mapResources createUser users resources batch_size
        dry_run).batches.flatten = users.map (·.username) ∧
    (import_users mapResources createUser users resources batch_size
        dry_run).processed = users.map (·.username) ∧
    (import_users mapResources createUser users resources batch_size
        dry_run).batches.length
      = (users.length + batch_size - 1) / batch_size ∧
    (∀ b ∈ (import_users mapResources createUser users resources batch_size
        dry_run).batches, 0 < b.length ∧ b.length ≤ batch_size) ∧
    (∀ b ∈ (import_users mapResources createUser users resources batch_size
        dry_run).batches.dropLast, b.length = batch_size) ∧
    (dry_run = false →
      (import_users mapResources createUser users resources batch_size
          dry_run).sleeps
        = (import_users mapResources createUser users resources batch_size
            dry_run).batches.length - 1) := by
  have hcond : ¬(missing_profiles users resources ≠ ∅ ∧ dry_run = false) := by
    rintro ⟨hm, hd⟩
    rcases hok with h | h
    · rw [h] at hd
      exact absurd hd (by decide)
    · exact hm h
  have hemp : ¬(users.isEmpty = true) := by
    simp [List.isEmpty_iff, hne]
  have hiu : import_users mapResources createUser users resources batch_size
        dry_run
      = { results := (import_users_batches dry_run mapResources createUser
            ((users.length + batch_size - 1) / batch_size) 1
            (chunkList batch_size users) ⟨0, 0, 0, []⟩).1
          createCalls := (import_users_batches dry_run mapResources createUser
            ((users.length + batch_size - 1) / batch_size) 1
            (chunkList batch_size users) ⟨0, 0, 0, []⟩).2.1
          processed := (import_users_batches dry_run mapResources createUser
            ((users.length + batch_size - 1) / batch_size) 1
            (chunkList batch_size users) ⟨0, 0, 0, []⟩).2.2.1
          batches := (chunkList batch_size users).map (·.map (·.username))
          sleeps := (import_users_batches dry_run mapResources createUser
            ((users.length + batch_size - 1) / batch_size) 1
            (chunkList batch_size users) ⟨0, 0, 0, []⟩).2.2.2 } := by
    simp only [import_users]
    rw [if_neg hemp, if_neg hcond]
  have hchlen : (chunkList batch_size users).length
      = (users.length + batch_size - 1) / batch_size :=
    chunkList_length batch_size hbs users hne
  refine ⟨?_, ?_, ?_, ?_, ?_, ?_, ?_⟩
  · rw [hiu]
  · rw [hiu]
    show ((chunkList batch_size users).map (·.map (·.username))).flatten = _
    rw [← List.map_flatten, chunkList_flatten batch_size hbs users]
  · rw [hiu]
    show (import_users_batches dry_run mapResources createUser _ 1
        (chunkList batch_size users) ⟨0, 0, 0, []⟩).2.2.1 = _
    rw [import_users_batches_processed, ← List.map_flatten,
      chunkList_flatten batch_size hbs users]
  · rw [hiu]
    show ((chunkList batch_size users).map (·.map (·.username))).length = _
    rw [List.length_map, hchlen]
  · rw [hiu]
    intro b hb
    rcases List.mem_map.mp hb with ⟨c, hc, rfl⟩
    have := chunkList_mem_length batch_size hbs users c hc
    simpa using this
  · rw [hiu]
    intro b hb
    rw [show ((chunkList batch_size users).map (·.map (·.username))).dropLast
        = (chunkList batch_size users).dropLast.map (·.map (·.username)) from
      map_dropLast_comm _ _] at hb
    rcases List.mem_map.mp hb with ⟨c, hc, rfl⟩
    have := chunkList_dropLast_length batch_size hbs users c hc
    simpa using this
  · intro hdry
    subst hdry
    rw [hiu]
    show (import_users_batches false mapResources createUser _ 1
        (chunkList batch_size users) ⟨0, 0, 0, []⟩).2.2.2 = _
    rw [import_users_batches_sleeps _ mapResources createUser
      (chunkList batch_size users) 1 ⟨0, 0, 0, []⟩ (by rw [hchlen]; omega)]
    rw [List.length_map, hchlen]

/-- C6 witness: the amended theorem applied to three users in batches of
two on a non-dry run with every referenced profile available: two
batches, every user processed once in order, one inter-batch sleep. -/
theorem claim_C6_import_users_batching_witness :
    (import_users (fun _ => Except.ok (none, [], none))
        (fun _ => Except.ok true)
        [⟨"u1", none, [⟨some "Agent", none⟩], none⟩,
         ⟨"u2", none, [⟨some "Agent", none⟩], none⟩,
         ⟨"u3", none, [⟨some "Agent", none⟩], none⟩]
        ⟨[], [("Agent", "sp-1")], []⟩ 2 false).processed
      = ["u1", "u2", "u3"] ∧
    (import_users (fun _ => Except.ok (none, [], none))
        (fun _ => Except.ok true)
        [⟨"u1", none, [⟨some "Agent", none⟩], none⟩,
         ⟨"u2", none, [⟨some "Agent", none⟩], none⟩,
         ⟨"u3", none, [⟨some "Agent", none⟩], none⟩]
        ⟨[], [("Agent", "sp-1")], []⟩ 2 false).batches.length = 2 ∧
    (import_users (fun _ => Except.ok (none, [], none))
        (fun _ => Except.ok true)
        [⟨"u1", none, [⟨some "Agent", none⟩], none⟩,
         ⟨"u2", none, [⟨some "Agent", none⟩], none⟩,
         ⟨"u3", none, [⟨some "Agent", none⟩], none⟩]
        ⟨[], [("Agent", "sp-1")], []⟩ 2 false).sleeps = 1 := by
  have h := claim_C6_import_users_batching
    (fun _ => Except.ok (none, [], none)) (fun _ => Except.ok true)
    [⟨"u1", none, [⟨some "Agent", none⟩], none⟩,
     ⟨"u2", none, [⟨some "Agent", none⟩], none⟩,
     ⟨"u3", none, [⟨some "Agent", none⟩], none⟩]
    ⟨[], [("Agent", "sp-1")], []⟩ 2 false
    (by decide) (by decide) (Or.inr (by decide))
  refine ⟨?_, ?_, ?_⟩
  · rw [h.2.2.1]
    decide
  · rw [h.2.2.2.1]
    decide
  · rw [h.2.2.2.2.2.2 rfl, h.2.2.2.1]
    decide

/-- C4 counterexample: an export file with two user records, both named
alice and both referencing the missing profile P, aborts the non-dry run
with failed = 1 — the size of the affected-username set — while
the number of users referencing a missing profile is 2, so failed does
not equal that number. -/
theorem claim_C4_missing_profiles_counterexample :
    (import_users (fun _ => Except.ok (none, [], none))
        (fun _ => Except.ok true)
        [⟨"alice", none, [⟨some "P", none⟩], none⟩,
         ⟨"alice", none, [⟨some "P", none⟩], none⟩]
        ⟨[], [], []⟩ 50 false).results.failed = 1 ∧
    (List.filter (fun u => user_references_missing u
        (missing_profiles
          [⟨"alice", none, [⟨some "P", none⟩], none⟩,
           ⟨"alice", none, [⟨some "P", none⟩], none⟩] ⟨[], [], []⟩))
      [⟨"alice", none, [⟨some "P", none⟩], none⟩,
       ⟨"alice", none, [⟨some "P", none⟩], none⟩]).length = 2 ∧
    (1 : Nat) ≠ 2 := by
  refine ⟨by decide, by decide, by decide⟩

/-- C4 (amended): when the export file references at least one security
profile name absent from the target and dry_run is false, import_users
returns before processing any user — no create_user call is issued and
no user is iterated — with success = 0 and failed equal to the number of
distinct usernames among the users that reference a missing profile (the
source counts a set of usernames, so duplicates collapse). -/
theorem claim_C4_missing_profiles_abort
    (mapResources : UserRecord → Except String (Option String × List String × Option String))
    (createUser : UserRecord → Except String Bool)
    (users : List UserRecord) (resources : UserImportResources)
    (batch_size : Nat)
    (hmiss : missing_profiles users resources ≠ ∅) :
    (import_users mapResources createUser users resources batch_size
        false).results.success = 0 ∧
    (import_users mapResources createUser users resources batch_size
        false).createCalls = [] ∧
    (import_users mapResources createUser users resources batch_size
        false).processed = [] ∧
    (import_users mapResources createUser users resources batch_size
        false).results.failed
      = (affected_users users (missing_profiles users resources)).length ∧
    (∀ s : String,
      s ∈ affected_users users (missing_profiles users resources) ↔
      ∃ u ∈ users, u.username = s ∧
        user_references_missing u (missing_profiles users resources)
          = true) := by
  have hne : users ≠ [] := by
    intro h
    subst h
    exact hmiss (missing_profiles_nil resources)
  have hemp : ¬(users.isEmpty = true) := by
    simp [List.isEmpty_iff, hne]
  have hiu : import_users mapResources createUser users resources batch_size
        false
      = { results := ⟨0, (affected_users users
            (missing_profiles users resources)).length, 0,
            affected_users users (missing_profiles users resources)⟩
          createCalls := [], processed := [], batches := [], sleeps := 0 } := by
    simp only [import_users]
    rw [if_neg hemp, if_pos ⟨hmiss, trivial⟩]
  refine ⟨by rw [hiu], by rw [hiu], by rw [hiu], by rw [hiu], ?_⟩
  intro s
  simp only [affected_users, List.mem_dedup, List.mem_map, List.mem_filter]
  constructor
  · rintro ⟨u, ⟨hu, hf⟩, rfl⟩
    exact ⟨u, hu, rfl, hf⟩
  · rintro ⟨u, hu, rfl, hf⟩
    exact ⟨u, ⟨hu, hf⟩, rfl⟩

/-- C4 witness: the amended theorem applied to a single user referencing
a profile absent from the target. -/
theorem claim_C4_missing_profiles_abort_witness :
    (import_users (fun _ => Except.ok (none, [], none))
        (fun _ => Except.ok true)
        [⟨"alice", none, [⟨some "P", none⟩], none⟩]
        ⟨[], [], []⟩ 50 false).results.success = 0 ∧
    (import_users (fun _ => Except.ok (none, [], none))
        (fun _ => Except.ok true)
        [⟨"alice", none, [⟨some "P", none⟩], none⟩]
        ⟨[], [], []⟩ 50 false).createCalls = [] ∧
    (import_users (fun _ => Except.ok (none, [], none))
        (fun _ => Except.ok true)
        [⟨"alice", none, [⟨some "P", none⟩], none⟩]
        ⟨[], [], []⟩ 50 false).results.failed = 1 := by
  have h := claim_C4_missing_profiles_abort
    (fun _ => Except.ok (none, [], none)) (fun _ => Except.ok true)
    [⟨"alice", none, [⟨some "P", none⟩], none⟩]
    ⟨[], [], []⟩ 50 (by decide)
  refine ⟨h.1, h.2.1, ?_⟩
  rw [h.2.2.2.1]
  decide
